import Mathlib

/-!
Verification development for the TitanCompute coordinator (Go sources).

Shallow embedding conventions:
* Go `int32` / `int64` fields are modelled as `Int` (no overflow is exercised
  by the registry or scheduler arithmetic on realistic inputs).
* Go `float64` fields (`cpu_percent`, `rtt_ms`, scores) are modelled as `ℚ`;
  division by zero in `ℚ` yields `0` where Go would yield `NaN`/`Inf`
  (this is only reachable when `total_vram_mb = 0`).
* Go `time.Time` / `time.Duration` are modelled as `Int` (whole seconds on a
  single monotonic clock); `t1.After t2` is the strict comparison `t1 > t2`.
* The Go `map[string]*AgentInfo` is modelled as a `List AgentInfo` keyed by
  `id`; map assignment replaces the entry with a matching key, map iteration
  order is the list order (Go map order is unspecified, so theorems quantify
  over all orders).
* RSA signing / verification (golang-jwt `RS256`) is abstracted as a key
  identity: a signature made with key `k` verifies exactly against key `k`.
-/

namespace TitanCompute

/-- Agent status values, from `registry` (part_003): `StatusHealthy`,
`StatusDegraded`, `StatusHalfOpen`, `StatusOffline`. -/
inductive AgentStatus
  | healthy
  | degraded
  | halfOpen
  | offline
deriving DecidableEq, Repr

/-- `AgentInfo` from `registry` (part_003): one record per registered agent. -/
structure AgentInfo where
  id : String
  endpoint : String
  totalVRAMMB : Int
  totalRAMMB : Int
  maxJobs : Int
  supportedModels : List String
  capabilities : List (String × String)
  freeVRAMMB : Int
  freeRAMMB : Int
  runningJobs : Int
  queuedJobs : Int
  cpuPercent : ℚ
  rttMs : ℚ
  lastHeartbeat : Int
  status : AgentStatus
  registeredAt : Int
  failureCount : Int
  lastFailureTime : Int
  nextRetryTime : Int
  successCount : Int
deriving DecidableEq, Repr

/-- `HealthStats` from `registry` (part_003): a heartbeat payload. -/
structure HealthStats where
  agentID : String
  freeVRAMMB : Int
  freeRAMMB : Int
  runningJobs : Int
  queuedJobs : Int
  cpuPercent : ℚ
  rttMs : ℚ
  timestamp : Int
deriving DecidableEq, Repr

/-- `CircuitBreakerConfig` from `registry` (part_003). Durations in seconds. -/
structure CircuitBreakerConfig where
  failureThreshold : Int
  recoveryTimeout : Int
  successThreshold : Int
  halfOpenTimeout : Int
deriving DecidableEq, Repr

/-- `DefaultCircuitBreakerConfig` from `registry` (part_003):
3 failures open, 30s recovery, 2 successes close, 10s half-open. -/
def defaultCircuitBreakerConfig : CircuitBreakerConfig :=
  { failureThreshold := 3, recoveryTimeout := 30, successThreshold := 2, halfOpenTimeout := 10 }

/-- The registry's agent map, keyed by `AgentInfo.id`. -/
abbrev AgentMap : Type := List AgentInfo

/-- Go map read `r.agents[agentID]`: the entry whose `id` matches, if any. -/
def lookupAgent (m : AgentMap) (agentID : String) : Option AgentInfo :=
  List.find? (fun a => a.id == agentID) m

/-- Go map write `r.agents[a.ID] = a`: replace the entry with the same key,
or add the agent when the key is absent. -/
def setAgent (m : AgentMap) (a : AgentInfo) : AgentMap :=
  if m.any (fun b => b.id == a.id) then
    m.map (fun b => if b.id == a.id then a else b)
  else
    m ++ [a]

/-- Go map delete `delete(r.agents, agentID)`. -/
def eraseAgent (m : AgentMap) (agentID : String) : AgentMap :=
  m.filter (fun b => !(b.id == agentID))

/-- `AgentRegistration` payload from the gRPC surface (`server.go`,
`RegisterAgent`): the fields the agent supplies. -/
structure AgentRegistration where
  agentID : String
  endpoint : String
  totalVRAMMB : Int
  totalRAMMB : Int
  maxJobs : Int
  supportedModels : List String
  capabilities : List (String × String)
deriving DecidableEq, Repr

/-- gRPC status codes used by the coordinator surface (`server.go`). -/
inductive GrpcCode
  | invalidArgument
  | unavailable
  | internal
  | notFound
deriving DecidableEq, Repr

/-- `CoordinatorServer.RegisterAgent` (`server.go`) composed with
`InMemoryRegistry.Register` (part_003): validate `agent_id`/`endpoint`,
build the record with `free_vram = total_vram`, `free_ram = total_ram` and
zero values for the remaining runtime fields (the Go zero value of the
`Status` string is immediately overwritten by `Register` with
`StatusHealthy`), stamp `RegisteredAt`/`LastHeartbeat` with `now`, and store
it, replacing any record with the same id. -/
def registerAgent (m : AgentMap) (now : Int) (reg : AgentRegistration) :
    Except GrpcCode AgentMap :=
  if reg.agentID = "" then .error .invalidArgument
  else if reg.endpoint = "" then .error .invalidArgument
  else .ok (setAgent m
    { id := reg.agentID
      endpoint := reg.endpoint
      totalVRAMMB := reg.totalVRAMMB
      totalRAMMB := reg.totalRAMMB
      maxJobs := reg.maxJobs
      supportedModels := reg.supportedModels
      capabilities := reg.capabilities
      freeVRAMMB := reg.totalVRAMMB
      freeRAMMB := reg.totalRAMMB
      runningJobs := 0
      queuedJobs := 0
      cpuPercent := 0
      rttMs := 0
      lastHeartbeat := now
      status := .healthy
      registeredAt := now
      failureCount := 0
      lastFailureTime := 0
      nextRetryTime := 0
      successCount := 0 })

/-- `InMemoryRegistry.Deregister` (part_003). -/
def deregister (m : AgentMap) (agentID : String) : Except String AgentMap :=
  match lookupAgent m agentID with
  | none => .error "agent not found"
  | some _ => .ok (eraseAgent m agentID)

/-- The local `vramUtilization` of `InMemoryRegistry.UpdateHealth`
(part_003): Go computes `float64(total-free)/float64(total)`; in `ℚ` a zero
denominator gives `0`. -/
def vramUtil (a : AgentInfo) : ℚ :=
  ((a.totalVRAMMB : ℚ) - (a.freeVRAMMB : ℚ)) / (a.totalVRAMMB : ℚ)

/-- The status-transition block at the end of `InMemoryRegistry.UpdateHealth`
(part_003, lines 176-193): only Healthy/Degraded records move, driven by
VRAM utilisation, CPU, and absolute free VRAM. -/
def applyHealthStatus (a : AgentInfo) : AgentInfo :=
  if a.status = .healthy ∨ a.status = .degraded then
    if vramUtil a > 9/10 ∨ a.cpuPercent > 90 ∨ a.freeVRAMMB < 512 then
      if a.status = .healthy then { a with status := .degraded } else a
    else if a.status = .degraded ∧ vramUtil a < 7/10 ∧ a.cpuPercent < 70 then
      { a with status := .healthy }
    else a
  else a

/-- `InMemoryRegistry.UpdateHealth` (part_003): store the heartbeat values
verbatim (no clamping appears in the source), stamp `LastHeartbeat`, then
run the Healthy/Degraded status update. -/
def updateHealth (m : AgentMap) (now : Int) (agentID : String) (stats : HealthStats) :
    Except String AgentMap :=
  match lookupAgent m agentID with
  | none => .error "agent not registered"
  | some a =>
    let a1 := { a with
      freeVRAMMB := stats.freeVRAMMB
      freeRAMMB := stats.freeRAMMB
      runningJobs := stats.runningJobs
      queuedJobs := stats.queuedJobs
      cpuPercent := stats.cpuPercent
      rttMs := stats.rttMs
      lastHeartbeat := now }
    .ok (setAgent m (applyHealthStatus a1))

/-- `InMemoryRegistry.RecordSuccess` (part_003): increment `SuccessCount`,
zero `FailureCount`; a HalfOpen record whose count reaches the success
threshold closes the circuit (Healthy, count rezeroed). -/
def recordSuccess (cfg : CircuitBreakerConfig) (m : AgentMap) (agentID : String) :
    Except String AgentMap :=
  match lookupAgent m agentID with
  | none => .error "agent not found"
  | some a =>
    let a1 := { a with successCount := a.successCount + 1, failureCount := 0 }
    let a2 :=
      if a1.status = .halfOpen ∧ a1.successCount ≥ cfg.successThreshold then
        { a1 with status := .healthy, successCount := 0 }
      else a1
    .ok (setAgent m a2)

/-- `InMemoryRegistry.RecordFailure` (part_003): increment `FailureCount`,
stamp `LastFailureTime`, zero `SuccessCount`; at the failure threshold the
circuit opens (Offline, `NextRetryTime = now + recovery_timeout`). -/
def recordFailure (cfg : CircuitBreakerConfig) (m : AgentMap) (now : Int) (agentID : String) :
    Except String AgentMap :=
  match lookupAgent m agentID with
  | none => .error "agent not found"
  | some a =>
    let a1 := { a with
      failureCount := a.failureCount + 1
      lastFailureTime := now
      successCount := 0 }
    let a2 :=
      if a1.failureCount ≥ cfg.failureThreshold then
        { a1 with status := .offline, nextRetryTime := now + cfg.recoveryTimeout }
      else a1
    .ok (setAgent m a2)

/-- `InMemoryRegistry.updateCircuitBreakerState` (part_003): timer-driven
transitions, all guarded by the strict `now.After(...)`, plus the
Degraded-recovery rule. -/
def updateCircuitBreakerState (cfg : CircuitBreakerConfig) (now : Int) (a : AgentInfo) :
    AgentInfo :=
  match a.status with
  | .offline =>
    if now > a.nextRetryTime then
      { a with status := .halfOpen, nextRetryTime := now + cfg.halfOpenTimeout }
    else a
  | .halfOpen =>
    if now > a.nextRetryTime then
      { a with status := .offline, nextRetryTime := now + cfg.recoveryTimeout }
    else a
  | .degraded =>
    if a.freeVRAMMB > 2048 ∧ a.cpuPercent < 80 then
      { a with status := .healthy, failureCount := 0 }
    else a
  | .healthy => a

/-- One agent's treatment inside `InMemoryRegistry.cleanupStaleAgents`
(part_003): a record whose heartbeat is older than `heartbeat_timeout` is
marked Offline and then removed from the map (net effect: removal); every
other record gets the circuit-breaker timer update. -/
def cleanupAgentStep (cfg : CircuitBreakerConfig) (hbTimeout : Int) (now : Int)
    (a : AgentInfo) : Option AgentInfo :=
  if now - a.lastHeartbeat > hbTimeout then none
  else some (updateCircuitBreakerState cfg now a)

/-- `InMemoryRegistry.cleanupStaleAgents` (part_003): one cleanup tick over
the whole map. -/
def cleanupStaleAgents (cfg : CircuitBreakerConfig) (hbTimeout : Int) (m : AgentMap)
    (now : Int) : AgentMap :=
  m.filterMap (cleanupAgentStep cfg hbTimeout now)

/-- `InMemoryRegistry.ListHealthyAgents` (part_003): only records with
`StatusHealthy` are returned (defensive copies are the identity in a pure
model). -/
def listHealthyAgents (m : AgentMap) : List AgentInfo :=
  m.filter (fun a => a.status == AgentStatus.healthy)

/-- Go substring `s[s.length - k:]` as a character list; exact for the ASCII
model names the heuristic targets (byte = character). -/
def goSuffix (s : String) (k : Nat) : List Char :=
  s.data.drop (s.data.length - k)

/-- `MCDAScheduler.estimateModelVRAMRequirement` (`scheduler.go`): `4096` for
the empty name; for names longer than 10 characters, suffix comparisons
(`model[len-3:] == "1B"` etc., modelled as `goSuffix`) pick `2048` / `6144` /
`10240`; otherwise `4096`. -/
def estimateModelVRAMRequirement (model : String) : Int :=
  if model = "" then 4096
  else if model.length > 10 then
    if goSuffix model 3 = "1B".data ∨ goSuffix model 2 = "1B".data then 2048
    else if goSuffix model 3 = "7B".data ∨ goSuffix model 2 = "7B".data then 6144
    else if goSuffix model 4 = "13B".data ∨ goSuffix model 3 = "13B".data then 10240
    else 4096
  else 4096

/-- `MCDAScheduler.supportsModel` (`scheduler.go`): exclude Offline, require
free VRAM at least the model's estimate, spare job capacity, and — when the
agent lists supported models — membership of the requested model. -/
def supportsModel (a : AgentInfo) (model : String) : Bool :=
  if a.status = .offline then false
  else if a.freeVRAMMB < estimateModelVRAMRequirement model then false
  else if a.runningJobs ≥ a.maxJobs then false
  else if a.supportedModels ≠ [] then a.supportedModels.contains model
  else true

/-- `MCDAWeights` (`scheduler.go`). -/
structure MCDAWeights where
  vramWeight : ℚ
  jobLoadWeight : ℚ
  latencyWeight : ℚ
  performanceWeight : ℚ
deriving DecidableEq, Repr

/-- `DefaultMCDAWeights` (`scheduler.go`): 0.40 / 0.30 / 0.20 / 0.10. -/
def defaultMCDAWeights : MCDAWeights :=
  { vramWeight := 4/10, jobLoadWeight := 3/10, latencyWeight := 2/10, performanceWeight := 1/10 }

/-- `AgentScore` (`scheduler.go`). -/
structure AgentScore where
  agent : AgentInfo
  score : ℚ
  vramScore : ℚ
  loadScore : ℚ
  rttScore : ℚ
  perfScore : ℚ
deriving DecidableEq, Repr

/-- The scheduler's performance-history map `perfHistory : agent id →
average tokens/sec`, modelled as an association list. -/
abbrev PerfHistory : Type := List (String × ℚ)

/-- `MCDAScheduler.calculateMCDAScore` (`scheduler.go`): the four normalized
sub-scores and their weighted total. -/
def calculateMCDAScore (w : MCDAWeights) (ph : PerfHistory) (a : AgentInfo) : AgentScore :=
  let vramUtilization : ℚ :=
    ((a.totalVRAMMB : ℚ) - (a.freeVRAMMB : ℚ)) / max (a.totalVRAMMB : ℚ) 1
  let vramScore := 1 - vramUtilization
  let loadUtilization : ℚ := (a.runningJobs : ℚ) / max (a.maxJobs : ℚ) 1
  let loadScore := 1 - loadUtilization
  let normalizedRTT := min (a.rttMs / 500) 1
  let rttScore := 1 - normalizedRTT
  let perfScore :=
    match List.find? (fun p => p.1 == a.id) ph with
    | some p => min (p.2 / 100) 1
    | none => 1/2
  { agent := a
    vramScore := vramScore
    loadScore := loadScore
    rttScore := rttScore
    perfScore := perfScore
    score := vramScore * w.vramWeight + loadScore * w.jobLoadWeight +
      rttScore * w.latencyWeight + perfScore * w.performanceWeight }

/-- The candidate-building loop of `MCDAScheduler.SelectAgent`
(`scheduler.go`, lines 93-108): an agent is scored iff it passes
`supportsModel` and its status is Healthy or HalfOpen; the Degraded ×0.5
rescale sits inside that branch exactly as in the source (where it is
unreachable, since Degraded is neither Healthy nor HalfOpen). -/
def primaryCandidates (w : MCDAWeights) (ph : PerfHistory) (agents : List AgentInfo)
    (model : String) : List AgentScore :=
  agents.filterMap (fun a =>
    if supportsModel a model then
      if a.status = .healthy ∨ a.status = .halfOpen then
        some (if a.status = .degraded then
            { calculateMCDAScore w ph a with
                score := (calculateMCDAScore w ph a).score * (1/2) }
          else calculateMCDAScore w ph a)
      else none
    else none)

/-- The fallback loop of `MCDAScheduler.SelectAgent` (`scheduler.go`, lines
110-118): with zero primary candidates, score every Healthy agent with no
resource or model constraint. -/
def fallbackCandidates (w : MCDAWeights) (ph : PerfHistory) (agents : List AgentInfo) :
    List AgentScore :=
  agents.filterMap (fun a =>
    if a.status = .healthy then some (calculateMCDAScore w ph a) else none)

/-- `sort.Slice(candidates, score descending)` followed by `candidates[0]`:
the earliest candidate with maximal score (for the slice sizes exercised
here Go's sort is insertion sort, which keeps arrival order on ties). -/
def selectTopFrom (best : AgentScore) : List AgentScore → AgentScore
  | [] => best
  | c :: cs => selectTopFrom (if c.score > best.score then c else best) cs

/-- The `candidates` slice of `MCDAScheduler.SelectAgent` after the fallback
block (`scheduler.go`, lines 93-118): the primary candidates, or — when
those are empty — every Healthy agent unconstrained. -/
def schedulerCandidates (w : MCDAWeights) (ph : PerfHistory) (agents : List AgentInfo)
    (model : String) : List AgentScore :=
  if primaryCandidates w ph agents model = [] then fallbackCandidates w ph agents
  else primaryCandidates w ph agents model

/-- `MCDAScheduler.SelectAgent` (`scheduler.go`): snapshot the healthy list,
build primary candidates, fall back to "any Healthy agent" when empty, and
return the top-scored candidate or a no-agents error. -/
def selectAgent (w : MCDAWeights) (ph : PerfHistory) (m : AgentMap) (model : String) :
    Except String AgentInfo :=
  let agents := listHealthyAgents m
  if agents.isEmpty then .error "no healthy agents available"
  else
    match schedulerCandidates w ph agents model with
    | [] => .error "no suitable agents available"
    | c :: cs => .ok (selectTopFrom c cs).agent

/-- JWT claims from `JWTClaims` (`server.go`): the three custom claims plus
the registered claims `jti`, `iss`, `iat`, `nbf`, `exp` (unix seconds). -/
structure JWTClaims where
  agentID : String
  clientID : String
  model : String
  jti : String
  iss : String
  iat : Int
  nbf : Int
  exp : Int
deriving DecidableEq, Repr

/-- A structured token: claims, declared algorithm, and the identity of the
signing key (abstracting the RS256 signature: it verifies exactly against
the matching key). -/
structure SignedToken where
  claims : JWTClaims
  alg : String
  keyID : Nat
deriving DecidableEq, Repr

/-- `JWTManager.GenerateToken` (`server.go`): mint RS256-signed claims with
`iat = nbf = now`, `exp = now + ttl`, issuer `titancompute-coordinator`. -/
def jwtGenerateToken (key : Nat) (now : Int) (jti : String)
    (agentID clientID model : String) (ttl : Int) : SignedToken :=
  { claims :=
      { agentID := agentID
        clientID := clientID
        model := model
        jti := jti
        iss := "titancompute-coordinator"
        iat := now
        nbf := now
        exp := now + ttl }
    alg := "RS256"
    keyID := key }

/-- `JWTManager.ValidateToken` (`server.go`) with golang-jwt v5's default
registered-claims validation: require an RSA method, a signature by the
matching key, and `now < exp`, `now ≥ nbf`, `now ≥ iat` (zero leeway). -/
def jwtValidateToken (key : Nat) (now : Int) (tok : SignedToken) :
    Except String JWTClaims :=
  if tok.alg ≠ "RS256" then .error "unexpected signing method"
  else if tok.keyID ≠ key then .error "failed to parse token: signature invalid"
  else if ¬ now < tok.claims.exp then .error "failed to parse token: token is expired"
  else if ¬ tok.claims.nbf ≤ now then .error "failed to parse token: token is not valid yet"
  else if ¬ tok.claims.iat ≤ now then .error "failed to parse token: token used before issued"
  else .ok tok.claims

/-- `SessionToken` (`server.go`). -/
structure SessionToken where
  id : String
  agentID : String
  clientID : String
  model : String
  issuedAt : Int
  expiresAt : Int
  jwtToken : SignedToken
deriving DecidableEq, Repr

/-- `CoordinatorServer.generateSessionToken` (`server.go`): sign a JWT
(`signOk` abstracts whether the RSA signing call fails), build the session
record, and index it in the in-memory token map (modelled as a list). -/
def generateSessionToken (key : Nat) (ttl : Int) (now : Int) (signOk : Bool)
    (jti tokenID : String) (agentID clientID model : String)
    (tokens : List SessionToken) : Except String (SessionToken × List SessionToken) :=
  if signOk then
    let jwtTok := jwtGenerateToken key now jti agentID clientID model ttl
    let tok : SessionToken :=
      { id := tokenID
        agentID := agentID
        clientID := clientID
        model := model
        issuedAt := now
        expiresAt := now + ttl
        jwtToken := jwtTok }
    .ok (tok, tokens ++ [tok])
  else .error "failed to generate JWT token"

/-- `InferenceRequest` fields used by the handler (`server.go`). -/
structure InferenceRequest where
  clientID : String
  model : String
  prompt : String
  maxTokens : Int
deriving DecidableEq, Repr

/-- `InferenceResponse` (`server.go`). -/
structure InferenceResponse where
  agentEndpoint : String
  sessionToken : SignedToken
  expiresAt : Int
  jobID : String
  estimatedRttMs : ℚ
  agentID : String
deriving DecidableEq, Repr

/-- `CoordinatorServer.RequestInference` (`server.go`): validate the three
required fields (InvalidArgument), select an agent (Unavailable on any
scheduler error), mint a session token (Internal on signing failure), and
answer with the agent's endpoint and id, the JWT, its expiry, and a job id.
The second component is the server's token map after the call. -/
def requestInference (key : Nat) (ttl : Int) (w : MCDAWeights) (ph : PerfHistory)
    (m : AgentMap) (tokens : List SessionToken) (req : InferenceRequest) (now : Int)
    (signOk : Bool) (jti tokenID jobID : String) :
    Except GrpcCode InferenceResponse × List SessionToken :=
  if req.clientID = "" then (.error .invalidArgument, tokens)
  else if req.model = "" then (.error .invalidArgument, tokens)
  else if req.prompt = "" then (.error .invalidArgument, tokens)
  else
    match selectAgent w ph m req.model with
    | .error _ => (.error .unavailable, tokens)
    | .ok agent =>
      match generateSessionToken key ttl now signOk jti tokenID agent.id req.clientID
          req.model tokens with
      | .error _ => (.error .internal, tokens)
      | .ok (tok, tokens1) =>
        (.ok
          { agentEndpoint := agent.endpoint
            sessionToken := tok.jwtToken
            expiresAt := tok.expiresAt
            jobID := jobID
            estimatedRttMs := agent.rttMs
            agentID := agent.id }, tokens1)

/-- The registry mutations reachable from outside plus the cleanup tick;
used to state reachable-state invariants. -/
inductive RegistryEvent
  | register (now : Int) (reg : AgentRegistration)
  | deregister (agentID : String)
  | updateHealth (now : Int) (agentID : String) (stats : HealthStats)
  | recordSuccess (agentID : String)
  | recordFailure (now : Int) (agentID : String)
  | cleanupTick (now : Int)

/-- Apply one event to the registry map; a failed operation (its error is
returned before any mutation in the source) leaves the map unchanged. -/
def applyEvent (cfg : CircuitBreakerConfig) (hbTimeout : Int) (m : AgentMap) :
    RegistryEvent → AgentMap
  | .register now reg =>
    match registerAgent m now reg with
    | .ok m1 => m1
    | .error _ => m
  | .deregister agentID =>
    match deregister m agentID with
    | .ok m1 => m1
    | .error _ => m
  | .updateHealth now agentID stats =>
    match updateHealth m now agentID stats with
    | .ok m1 => m1
    | .error _ => m
  | .recordSuccess agentID =>
    match recordSuccess cfg m agentID with
    | .ok m1 => m1
    | .error _ => m
  | .recordFailure now agentID =>
    match recordFailure cfg m now agentID with
    | .ok m1 => m1
    | .error _ => m
  | .cleanupTick now => cleanupStaleAgents cfg hbTimeout m now

/-- The registry state after a sequence of events, starting empty. -/
def runEvents (cfg : CircuitBreakerConfig) (hbTimeout : Int)
    (events : List RegistryEvent) : AgentMap :=
  events.foldl (applyEvent cfg hbTimeout) []

/-- The spec's four-condition admission filter (§4.2), stated from the
spec's words for comparison with the code-derived `supportsModel` and
candidate construction. -/
def admissionFilter (a : AgentInfo) (model : String) : Prop :=
  (a.status = .healthy ∨ a.status = .degraded ∨ a.status = .halfOpen) ∧
  estimateModelVRAMRequirement model ≤ a.freeVRAMMB ∧
  a.runningJobs < a.maxJobs ∧
  (a.supportedModels = [] ∨ model ∈ a.supportedModels)

instance (a : AgentInfo) (model : String) : Decidable (admissionFilter a model) := by
  unfold admissionFilter
  infer_instance

/-- A fixed registration payload used by concrete instances. -/
def sampleRegistration : AgentRegistration :=
  { agentID := "A1"
    endpoint := "10.0.0.1:9000"
    totalVRAMMB := 8192
    totalRAMMB := 16384
    maxJobs := 4
    supportedModels := []
    capabilities := [] }

/-- The record `registerAgent` produces for `sampleRegistration` at time 0,
used as the base of concrete instances. -/
def sampleAgent : AgentInfo :=
  { id := "A1"
    endpoint := "10.0.0.1:9000"
    totalVRAMMB := 8192
    totalRAMMB := 16384
    maxJobs := 4
    supportedModels := []
    capabilities := []
    freeVRAMMB := 8192
    freeRAMMB := 16384
    runningJobs := 0
    queuedJobs := 0
    cpuPercent := 0
    rttMs := 0
    lastHeartbeat := 0
    status := .healthy
    registeredAt := 0
    failureCount := 0
    lastFailureTime := 0
    nextRetryTime := 0
    successCount := 0 }

/-! ## Helper lemmas -/

theorem mem_setAgent {m : AgentMap} {a b : AgentInfo} (h : b ∈ setAgent m a) :
    b = a ∨ b ∈ m := by
  unfold setAgent at h
  split at h
  · rcases List.mem_map.mp h with ⟨c, hc, hcb⟩
    by_cases hid : c.id == a.id
    · simp [hid] at hcb
      exact Or.inl hcb.symm
    · simp [hid] at hcb
      exact Or.inr (hcb ▸ hc)
  · rcases List.mem_append.mp h with hc | hc
    · exact Or.inr hc
    · exact Or.inl (List.mem_singleton.mp hc)

theorem lookupAgent_mem {m : AgentMap} {agentID : String} {a : AgentInfo}
    (h : lookupAgent m agentID = some a) : a ∈ m ∧ a.id = agentID := by
  refine ⟨List.mem_of_find?_eq_some h, ?_⟩
  have := List.find?_some h
  simpa using this

theorem find?_map_replace {agentID : String} {a' : AgentInfo} (hid : a'.id = agentID) :
    ∀ (m : List AgentInfo) (a : AgentInfo),
      List.find? (fun x => x.id == agentID) m = some a →
      List.find? (fun x => x.id == agentID)
        (m.map (fun b => if b.id == a'.id then a' else b)) = some a' := by
  intro m
  induction m with
  | nil => intro a h; simp at h
  | cons c cs ih =>
    intro a h
    by_cases hc : c.id = agentID
    · have hca : (c.id == a'.id) = true := by simp [hc, hid]
      have hfind : (a'.id == agentID) = true := by simp [hid]
      rw [List.map_cons, if_pos hca]
      simp only [List.find?, hfind]
    · have hca : ¬ (c.id == a'.id) = true := by simp [hc, hid]
      have hcb : (c.id == agentID) = false := by simp [hc]
      simp only [List.find?, hcb] at h
      rw [List.map_cons, if_neg hca]
      simp only [List.find?, hcb]
      exact ih a h

theorem lookupAgent_setAgent {m : AgentMap} {agentID : String} {a a' : AgentInfo}
    (h : lookupAgent m agentID = some a) (hid : a'.id = agentID) :
    lookupAgent (setAgent m a') agentID = some a' := by
  have hmem := (lookupAgent_mem h).1
  have haid := (lookupAgent_mem h).2
  have hany : m.any (fun b => b.id == a'.id) = true := by
    refine List.any_eq_true.mpr ⟨a, hmem, ?_⟩
    simp [haid, hid]
  unfold setAgent
  rw [if_pos hany]
  exact find?_map_replace hid m a h

theorem mem_setAgent_of_ne {m : AgentMap} {a b : AgentInfo} (hb : b ∈ m)
    (hne : b.id ≠ a.id) : b ∈ setAgent m a := by
  unfold setAgent
  split
  · refine List.mem_map.mpr ⟨b, hb, ?_⟩
    simp [hne]
  · exact List.mem_append.mpr (Or.inl hb)

theorem mem_listHealthyAgents {m : AgentMap} {a : AgentInfo} :
    a ∈ listHealthyAgents m ↔ a ∈ m ∧ a.status = .healthy := by
  unfold listHealthyAgents
  simp [List.mem_filter]

theorem selectTopFrom_mem (c : AgentScore) (cs : List AgentScore) :
    selectTopFrom c cs ∈ c :: cs := by
  induction cs generalizing c with
  | nil => simp [selectTopFrom]
  | cons d ds ih =>
    have hunfold : selectTopFrom c (d :: ds) =
        selectTopFrom (if d.score > c.score then d else c) ds := rfl
    rw [hunfold]
    rcases List.mem_cons.mp (ih (if d.score > c.score then d else c)) with h1 | h1
    · rw [h1]
      by_cases h : d.score > c.score
      · rw [if_pos h]
        exact List.mem_cons.mpr (Or.inr (List.mem_cons_self d ds))
      · rw [if_neg h]
        exact List.mem_cons_self c (d :: ds)
    · exact List.mem_cons.mpr (Or.inr (List.mem_cons.mpr (Or.inr h1)))

theorem selectTopFrom_le (c : AgentScore) (cs : List AgentScore) :
    ∀ x ∈ c :: cs, x.score ≤ (selectTopFrom c cs).score := by
  induction cs generalizing c with
  | nil =>
    intro x hx
    simp at hx
    simp [selectTopFrom, hx]
  | cons d ds ih =>
    intro x hx
    have hc : c.score ≤ (if d.score > c.score then d else c).score := by
      by_cases h : d.score > c.score
      · rw [if_pos h]
        exact le_of_lt h
      · rw [if_neg h]
    have hd : d.score ≤ (if d.score > c.score then d else c).score := by
      by_cases h : d.score > c.score
      · rw [if_pos h]
      · rw [if_neg h]
        exact le_of_not_lt h
    have htop : (if d.score > c.score then d else c).score ≤
        (selectTopFrom (if d.score > c.score then d else c) ds).score := by
      have hm : (if d.score > c.score then d else c) ∈
          (if d.score > c.score then d else c) :: ds := List.mem_cons_self _ _
      exact ih (if d.score > c.score then d else c)
        (if d.score > c.score then d else c) hm
    have hunfold : selectTopFrom c (d :: ds) =
        selectTopFrom (if d.score > c.score then d else c) ds := rfl
    rw [hunfold]
    rcases List.mem_cons.mp hx with h1 | h1
    · subst h1
      exact le_trans hc htop
    · rcases List.mem_cons.mp h1 with h2 | h2
      · subst h2
        exact le_trans hd htop
      · exact ih (if d.score > c.score then d else c) x (List.mem_cons.mpr (Or.inr h2))

theorem mem_primaryCandidates {w : MCDAWeights} {ph : PerfHistory}
    {agents : List AgentInfo} {model : String} {sc : AgentScore}
    (h : sc ∈ primaryCandidates w ph agents model) :
    ∃ a ∈ agents, supportsModel a model = true ∧
      (a.status = .healthy ∨ a.status = .halfOpen) ∧ sc.agent = a := by
  unfold primaryCandidates at h
  rcases List.mem_filterMap.mp h with ⟨a, ha, heq⟩
  refine ⟨a, ha, ?_⟩
  by_cases h1 : supportsModel a model = true
  · by_cases h2 : a.status = .healthy ∨ a.status = .halfOpen
    · refine ⟨h1, h2, ?_⟩
      rw [if_pos h1, if_pos h2] at heq
      have heq' := Option.some_inj.mp heq
      by_cases hd : a.status = .degraded
      · rw [if_pos hd] at heq'
        rw [← heq']
        rfl
      · rw [if_neg hd] at heq'
        rw [← heq']
        rfl
    · rw [if_pos h1, if_neg h2] at heq
      exact absurd heq (by simp)
  · rw [if_neg h1] at heq
    exact absurd heq (by simp)

theorem mem_fallbackCandidates {w : MCDAWeights} {ph : PerfHistory}
    {agents : List AgentInfo} {sc : AgentScore}
    (h : sc ∈ fallbackCandidates w ph agents) :
    ∃ a ∈ agents, a.status = .healthy ∧ sc = calculateMCDAScore w ph a := by
  unfold fallbackCandidates at h
  rcases List.mem_filterMap.mp h with ⟨a, ha, heq⟩
  by_cases h1 : a.status = .healthy
  · simp only [h1, if_pos] at heq
    exact ⟨a, ha, h1, (Option.some_inj.mp heq).symm⟩
  · simp [h1] at heq

theorem calculateMCDAScore_agent (w : MCDAWeights) (ph : PerfHistory) (a : AgentInfo) :
    (calculateMCDAScore w ph a).agent = a := rfl

theorem supportsModel_true {a : AgentInfo} {model : String}
    (h : supportsModel a model = true) :
    a.status ≠ .offline ∧ estimateModelVRAMRequirement model ≤ a.freeVRAMMB ∧
      a.runningJobs < a.maxJobs ∧
      (a.supportedModels = [] ∨ model ∈ a.supportedModels) := by
  unfold supportsModel at h
  by_cases h1 : a.status = .offline
  · simp [h1] at h
  · by_cases h2 : a.freeVRAMMB < estimateModelVRAMRequirement model
    · simp [h1, h2] at h
    · by_cases h3 : a.runningJobs ≥ a.maxJobs
      · simp [h1, h2, h3] at h
      · refine ⟨h1, le_of_not_lt h2, lt_of_not_le h3, ?_⟩
        by_cases h4 : a.supportedModels = []
        · exact Or.inl h4
        · simp only [h1, if_neg, h2, h3, h4, ne_eq, not_false_eq_true, if_true] at h
          exact Or.inr (by simpa using h)

theorem goSuffix_length {s : String} {n : Nat} (h : n ≤ s.data.length) :
    (goSuffix s n).length = n := by
  unfold goSuffix
  rw [List.length_drop]
  omega

/-! ## C3 -/

/-- C3: a token minted with agent/client/model claims and positive ttl
verifies against the minting key at any time in `[iat, exp)` and yields
exactly the minted claims, which satisfy `exp > iat` and `exp - iat = ttl`. -/
theorem C3_token_roundtrip (key : Nat) (now t ttl : Int)
    (jti agentID clientID model : String)
    (httl : 0 < ttl) (h1 : now ≤ t) (h2 : t < now + ttl) :
    jwtValidateToken key t (jwtGenerateToken key now jti agentID clientID model ttl) =
      .ok { agentID := agentID, clientID := clientID, model := model, jti := jti,
            iss := "titancompute-coordinator", iat := now, nbf := now, exp := now + ttl } ∧
    (jwtGenerateToken key now jti agentID clientID model ttl).claims.iat <
      (jwtGenerateToken key now jti agentID clientID model ttl).claims.exp ∧
    (jwtGenerateToken key now jti agentID clientID model ttl).claims.exp -
      (jwtGenerateToken key now jti agentID clientID model ttl).claims.iat = ttl := by
  unfold jwtGenerateToken jwtValidateToken
  simp only []
  refine ⟨?_, by simpa using httl, by simp⟩
  rw [if_neg (by simp), if_neg (by simp), if_neg (by simpa using h2),
    if_neg (by simpa using h1), if_neg (by simpa using h1)]

theorem C3_token_roundtrip_witness :
    (0 : Int) < 60 ∧ (1000 : Int) ≤ 1030 ∧ (1030 : Int) < 1000 + 60 ∧
    jwtValidateToken 7 1030 (jwtGenerateToken 7 1000 "jti-1" "A1" "c1" "llama3:7b" 60) =
      .ok { agentID := "A1", clientID := "c1", model := "llama3:7b", jti := "jti-1",
            iss := "titancompute-coordinator", iat := 1000, nbf := 1000, exp := 1060 } :=
  ⟨by decide, by decide, by decide,
    (C3_token_roundtrip 7 1000 1030 60 "jti-1" "A1" "c1" "llama3:7b"
      (by decide) (by decide) (by decide)).1⟩

/-! ## C7 -/

/-- C7 counterexample: `"phi-1B"` has suffix token `"1B"` but the estimator
returns 4096, not the claimed 2048, because the suffix table is consulted
only for names longer than 10 characters. -/
theorem C7_counterexample :
    goSuffix "phi-1B" 2 = "1B".data ∧
    estimateModelVRAMRequirement "phi-1B" = 4096 ∧
    estimateModelVRAMRequirement "phi-1B" ≠ 2048 := by
  refine ⟨by decide, by decide, by decide⟩

/-- C7 amended: the suffix table applies only to names longer than 10
characters — `"1B"`/`"7B"` matched on the last two characters, `"13B"` on the
last three, default 4096 — and every name of length at most 10 (the empty
name included) estimates to 4096. -/
theorem C7_amended (model : String) :
    (model.length ≤ 10 → estimateModelVRAMRequirement model = 4096) ∧
    (10 < model.length →
      (goSuffix model 2 = "1B".data → estimateModelVRAMRequirement model = 2048) ∧
      (goSuffix model 2 = "7B".data → estimateModelVRAMRequirement model = 6144) ∧
      (goSuffix model 3 = "13B".data → estimateModelVRAMRequirement model = 10240) ∧
      (goSuffix model 2 ≠ "1B".data → goSuffix model 2 ≠ "7B".data →
        goSuffix model 3 ≠ "13B".data → estimateModelVRAMRequirement model = 4096)) := by
  have hlen : model.length = model.data.length := rfl
  constructor
  · intro hle
    unfold estimateModelVRAMRequirement
    split
    · rfl
    · rw [if_neg (by omega)]
  · intro hgt
    have hne : model ≠ "" := by
      intro he
      rw [he] at hgt
      simp at hgt
    have h3 : (goSuffix model 3).length = 3 := goSuffix_length (by omega)
    have h4 : (goSuffix model 4).length = 4 := goSuffix_length (by omega)
    have h31 : goSuffix model 3 ≠ "1B".data := by
      intro he
      have := congrArg List.length he
      rw [h3] at this
      simp at this
    have h37 : goSuffix model 3 ≠ "7B".data := by
      intro he
      have := congrArg List.length he
      rw [h3] at this
      simp at this
    have h413 : goSuffix model 4 ≠ "13B".data := by
      intro he
      have := congrArg List.length he
      rw [h4] at this
      simp at this
    have hdrop : goSuffix model 2 = (goSuffix model 3).drop 1 := by
      unfold goSuffix
      rw [List.drop_drop]
      congr 1
      omega
    refine ⟨?_, ?_, ?_, ?_⟩
    · intro h21
      unfold estimateModelVRAMRequirement
      rw [if_neg hne, if_pos (by omega), if_pos (Or.inr h21)]
    · intro h27
      unfold estimateModelVRAMRequirement
      rw [if_neg hne, if_pos (by omega),
        if_neg (by
          rintro (he | he)
          · exact h31 he
          · rw [h27] at he
            simp at he),
        if_pos (Or.inr h27)]
    · intro h313
      have h21 : goSuffix model 2 ≠ "1B".data := by
        rw [hdrop, h313]
        decide
      have h27 : goSuffix model 2 ≠ "7B".data := by
        rw [hdrop, h313]
        decide
      unfold estimateModelVRAMRequirement
      rw [if_neg hne, if_pos (by omega),
        if_neg (by
          rintro (he | he)
          · exact h31 he
          · exact h21 he),
        if_neg (by
          rintro (he | he)
          · exact h37 he
          · exact h27 he),
        if_pos (Or.inr h313)]
    · intro h21 h27 h313
      unfold estimateModelVRAMRequirement
      rw [if_neg hne, if_pos (by omega),
        if_neg (by
          rintro (he | he)
          · exact h31 he
          · exact h21 he),
        if_neg (by
          rintro (he | he)
          · exact h37 he
          · exact h27 he),
        if_neg (by
          rintro (he | he)
          · exact h413 he
          · exact h313 he)]

theorem C7_amended_witness :
    ("tinymodel".length ≤ 10 ∧ estimateModelVRAMRequirement "tinymodel" = 4096) ∧
    (10 < "bigmodelname1B".length ∧ goSuffix "bigmodelname1B" 2 = "1B".data ∧
      estimateModelVRAMRequirement "bigmodelname1B" = 2048) :=
  ⟨⟨by decide, (C7_amended "tinymodel").1 (by decide)⟩,
    ⟨by decide, by decide, ((C7_amended "bigmodelname1B").2 (by decide)).1 (by decide)⟩⟩

/-! ## C8 -/

/-- C8 counterexample: an Offline record whose `next_retry_time` equals the
cleanup time `now` exactly is left Offline by the tick — `now.After` is
strict — contradicting the claimed boundary transition to HalfOpen. -/
theorem C8_counterexample :
    cleanupStaleAgents defaultCircuitBreakerConfig 30
        [{ sampleAgent with status := .offline, nextRetryTime := 100, lastHeartbeat := 100 }]
        100 =
      [{ sampleAgent with status := .offline, nextRetryTime := 100, lastHeartbeat := 100 }] ∧
    ({ sampleAgent with
        status := .offline
        nextRetryTime := 100
        lastHeartbeat := 100 } : AgentInfo).status = .offline := by
  exact ⟨rfl, rfl⟩

/-- C8 amended: on a cleanup tick at time `now`, a fresh-heartbeat Offline
record transitions to HalfOpen with `next_retry_time = now + half_open_timeout`
only when `now` is strictly greater than `next_retry_time`; at the exact
boundary `now = next_retry_time` the record is left unchanged. -/
theorem C8_amended (cfg : CircuitBreakerConfig) (hbTimeout now : Int) (a : AgentInfo)
    (hs : a.status = .offline) (hfresh : ¬ now - a.lastHeartbeat > hbTimeout) :
    (now > a.nextRetryTime →
      cleanupAgentStep cfg hbTimeout now a =
        some { a with status := .halfOpen, nextRetryTime := now + cfg.halfOpenTimeout }) ∧
    (now = a.nextRetryTime → cleanupAgentStep cfg hbTimeout now a = some a) := by
  unfold cleanupAgentStep updateCircuitBreakerState
  rw [if_neg hfresh, hs]
  constructor
  · intro hr
    simp only [if_pos hr]
  · intro hr
    rw [if_neg (by omega)]

theorem applyHealthStatus_cases (x : AgentInfo) :
    applyHealthStatus x = x ∨
      ((x.status = .healthy ∨ x.status = .degraded) ∧
        (applyHealthStatus x = { x with status := .degraded } ∨
         applyHealthStatus x = { x with status := .healthy })) := by
  unfold applyHealthStatus
  by_cases h0 : x.status = .healthy ∨ x.status = .degraded
  · rw [if_pos h0]
    split_ifs with h1 h2 h3
    · exact Or.inr ⟨h0, Or.inl rfl⟩
    · exact Or.inl rfl
    · exact Or.inr ⟨h0, Or.inr rfl⟩
    · exact Or.inl rfl
  · rw [if_neg h0]
    exact Or.inl rfl

theorem applyHealthStatus_id (x : AgentInfo) : (applyHealthStatus x).id = x.id := by
  unfold applyHealthStatus
  split_ifs <;> rfl

theorem applyHealthStatus_metrics (x : AgentInfo) :
    (applyHealthStatus x).freeVRAMMB = x.freeVRAMMB ∧
    (applyHealthStatus x).freeRAMMB = x.freeRAMMB ∧
    (applyHealthStatus x).runningJobs = x.runningJobs ∧
    (applyHealthStatus x).queuedJobs = x.queuedJobs ∧
    (applyHealthStatus x).cpuPercent = x.cpuPercent ∧
    (applyHealthStatus x).rttMs = x.rttMs ∧
    (applyHealthStatus x).lastHeartbeat = x.lastHeartbeat ∧
    (applyHealthStatus x).totalVRAMMB = x.totalVRAMMB ∧
    (applyHealthStatus x).maxJobs = x.maxJobs ∧
    (applyHealthStatus x).failureCount = x.failureCount := by
  unfold applyHealthStatus
  split_ifs <;> exact ⟨rfl, rfl, rfl, rfl, rfl, rfl, rfl, rfl, rfl, rfl⟩

theorem C8_amended_witness :
    (({ sampleAgent with
        status := .offline
        nextRetryTime := 100
        lastHeartbeat := 100 } : AgentInfo).status = .offline) ∧
    ¬ (101 : Int) - 100 > 30 ∧ (101 : Int) > 100 ∧
    cleanupAgentStep defaultCircuitBreakerConfig 30 101
        { sampleAgent with status := .offline, nextRetryTime := 100, lastHeartbeat := 100 } =
      some { sampleAgent with
        status := .halfOpen
        nextRetryTime := 111
        lastHeartbeat := 100 } :=
  ⟨rfl, by decide, by decide,
    (C8_amended defaultCircuitBreakerConfig 30 101
      { sampleAgent with status := .offline, nextRetryTime := 100, lastHeartbeat := 100 }
      rfl (by decide)).1 (by decide)⟩

/-! ## C5 -/

/-- A heartbeat payload whose values violate the claimed bounds. -/
def sampleOverStats : HealthStats :=
  { agentID := "A1", freeVRAMMB := 9000000, freeRAMMB := 0, runningJobs := 99,
    queuedJobs := 0, cpuPercent := 0, rttMs := 0, timestamp := 5 }

/-- The record `UpdateHealth` stores for `sampleOverStats` on `sampleAgent`. -/
def sampleOverRec : AgentInfo := { sampleAgent with
  freeVRAMMB := 9000000
  freeRAMMB := 0
  runningJobs := 99
  queuedJobs := 0
  cpuPercent := 0
  rttMs := 0
  lastHeartbeat := 5 }

/-- C5 counterexample: a heartbeat reporting `free_vram_mb = 9000000`
(far above `total_vram_mb = 8192`) and `running_jobs = 99` (above
`max_jobs = 4`) is stored verbatim by `UpdateHealth` — no clamping — so the
claimed bounds `free_vram_mb ≤ total_vram_mb` and `running_jobs ≤ max_jobs`
fail after a successful heartbeat apply. -/
theorem C5_counterexample :
    updateHealth [sampleAgent] 5 "A1" sampleOverStats = .ok [sampleOverRec] ∧
    sampleOverRec.freeVRAMMB = 9000000 ∧ sampleOverRec.totalVRAMMB = 8192 ∧
    sampleOverRec.runningJobs = 99 ∧ sampleOverRec.maxJobs = 4 ∧
    ¬ (9000000 : Int) ≤ 8192 ∧ ¬ (99 : Int) ≤ 4 := by
  have hA : applyHealthStatus sampleOverRec = sampleOverRec := by
    unfold applyHealthStatus
    rw [if_pos (show sampleOverRec.status = .healthy ∨ sampleOverRec.status = .degraded from
      Or.inl rfl), if_neg ?hc1, if_neg ?hc2]
    case hc1 =>
      rintro (hv | hv | hv)
      · rw [show vramUtil sampleOverRec = ((8192 : ℚ) - 9000000) / 8192 from rfl] at hv
        norm_num at hv
      · norm_num [sampleOverRec, sampleAgent] at hv
      · norm_num [sampleOverRec, sampleAgent] at hv
    case hc2 =>
      rintro ⟨hv, -, -⟩
      exact absurd hv (by decide)
  have hL : updateHealth [sampleAgent] 5 "A1" sampleOverStats =
      .ok (setAgent [sampleAgent] (applyHealthStatus sampleOverRec)) := rfl
  refine ⟨?_, rfl, rfl, rfl, rfl, by decide, by decide⟩
  rw [hL, hA]
  rfl

/-- C5 amended: a successful `UpdateHealth` stores the heartbeat metric
values exactly as given (and stamps the heartbeat time), with no clamping to
the `[0, total_vram_mb]` / `[0, max_jobs]` ranges; the static capacities are
unchanged, so out-of-range payloads produce out-of-range records. -/
theorem C5_amended (m : AgentMap) (now : Int) (agentID : String) (stats : HealthStats)
    (a : AgentInfo) (h : lookupAgent m agentID = some a) :
    ∃ m1 r, updateHealth m now agentID stats = .ok m1 ∧
      lookupAgent m1 agentID = some r ∧
      r.freeVRAMMB = stats.freeVRAMMB ∧ r.freeRAMMB = stats.freeRAMMB ∧
      r.runningJobs = stats.runningJobs ∧ r.queuedJobs = stats.queuedJobs ∧
      r.cpuPercent = stats.cpuPercent ∧ r.rttMs = stats.rttMs ∧
      r.lastHeartbeat = now ∧ r.totalVRAMMB = a.totalVRAMMB ∧ r.maxJobs = a.maxJobs := by
  have hid : a.id = agentID := (lookupAgent_mem h).2
  let a1 : AgentInfo := { a with
    freeVRAMMB := stats.freeVRAMMB
    freeRAMMB := stats.freeRAMMB
    runningJobs := stats.runningJobs
    queuedJobs := stats.queuedJobs
    cpuPercent := stats.cpuPercent
    rttMs := stats.rttMs
    lastHeartbeat := now }
  refine ⟨setAgent m (applyHealthStatus a1), applyHealthStatus a1, ?_, ?_, ?_⟩
  · unfold updateHealth
    rw [h]
  · exact lookupAgent_setAgent h (by rw [applyHealthStatus_id]; exact hid)
  · have hm := applyHealthStatus_metrics a1
    exact ⟨hm.1, hm.2.1, hm.2.2.1, hm.2.2.2.1, hm.2.2.2.2.1, hm.2.2.2.2.2.1,
      hm.2.2.2.2.2.2.1, hm.2.2.2.2.2.2.2.1, hm.2.2.2.2.2.2.2.2.1⟩

theorem C5_amended_witness :
    lookupAgent [sampleAgent] "A1" = some sampleAgent ∧
    (∃ m1 r, updateHealth [sampleAgent] 5 "A1"
        { agentID := "A1", freeVRAMMB := 9000000, freeRAMMB := 0, runningJobs := 99,
          queuedJobs := 0, cpuPercent := 0, rttMs := 0, timestamp := 5 } = .ok m1 ∧
      lookupAgent m1 "A1" = some r ∧
      r.freeVRAMMB = 9000000 ∧ r.freeRAMMB = 0 ∧
      r.runningJobs = 99 ∧ r.queuedJobs = 0 ∧
      r.cpuPercent = 0 ∧ r.rttMs = 0 ∧
      r.lastHeartbeat = 5 ∧ r.totalVRAMMB = sampleAgent.totalVRAMMB ∧
      r.maxJobs = sampleAgent.maxJobs) :=
  ⟨rfl, C5_amended [sampleAgent] 5 "A1"
    { agentID := "A1", freeVRAMMB := 9000000, freeRAMMB := 0, runningJobs := 99,
      queuedJobs := 0, cpuPercent := 0, rttMs := 0, timestamp := 5 }
    sampleAgent rfl⟩

/-! ## C10 -/

/-- C10: `RecordSuccess` on a registered agent increments `success_count`,
zeroes `failure_count`, and leaves every other field of the record — and
every other agent — unchanged; only when the agent is HalfOpen and the
incremented count reaches the success threshold does it additionally set the
status to Healthy and reset `success_count` to 0. -/
theorem C10_recordSuccess_frame (cfg : CircuitBreakerConfig) (m : AgentMap)
    (agentID : String) (a : AgentInfo) (h : lookupAgent m agentID = some a) :
    (¬ (a.status = .halfOpen ∧ a.successCount + 1 ≥ cfg.successThreshold) →
      ∃ m1, recordSuccess cfg m agentID = .ok m1 ∧
        lookupAgent m1 agentID =
          some { a with successCount := a.successCount + 1, failureCount := 0 } ∧
        ∀ b ∈ m, b.id ≠ agentID → b ∈ m1) ∧
    (a.status = .halfOpen → a.successCount + 1 ≥ cfg.successThreshold →
      ∃ m1, recordSuccess cfg m agentID = .ok m1 ∧
        lookupAgent m1 agentID =
          some { a with status := .healthy, successCount := 0, failureCount := 0 } ∧
        ∀ b ∈ m, b.id ≠ agentID → b ∈ m1) := by
  have hid : a.id = agentID := (lookupAgent_mem h).2
  constructor
  · intro hcond
    refine ⟨setAgent m { a with successCount := a.successCount + 1, failureCount := 0 },
      ?_, ?_, ?_⟩
    · unfold recordSuccess
      rw [h]
      simp only []
      rw [if_neg (by simpa using hcond)]
    · exact lookupAgent_setAgent h hid
    · intro b hb hbid
      exact mem_setAgent_of_ne hb (by simpa [hid] using hbid)
  · intro hhalf hreach
    refine ⟨setAgent m { a with status := .healthy, successCount := 0, failureCount := 0 },
      ?_, ?_, ?_⟩
    · unfold recordSuccess
      rw [h]
      simp only []
      rw [if_pos (by simpa using And.intro hhalf hreach)]
    · exact lookupAgent_setAgent h hid
    · intro b hb hbid
      exact mem_setAgent_of_ne hb (by simpa [hid] using hbid)

theorem C10_recordSuccess_frame_witness :
    lookupAgent [sampleAgent] "A1" = some sampleAgent ∧
    ¬ (sampleAgent.status = .halfOpen ∧
        sampleAgent.successCount + 1 ≥ defaultCircuitBreakerConfig.successThreshold) ∧
    (∃ m1, recordSuccess defaultCircuitBreakerConfig [sampleAgent] "A1" = .ok m1 ∧
      lookupAgent m1 "A1" =
        some { sampleAgent with
          successCount := sampleAgent.successCount + 1
          failureCount := 0 } ∧
      ∀ b ∈ [sampleAgent], b.id ≠ "A1" → b ∈ m1) :=
  ⟨rfl, by decide,
    (C10_recordSuccess_frame defaultCircuitBreakerConfig [sampleAgent] "A1" sampleAgent
      rfl).1 (by decide)⟩

/-! ## C4 -/

/-- The (amended) registry invariant: every Healthy or Degraded record's
failure counter is below the circuit-opening threshold. -/
def healthyFailureInv (cfg : CircuitBreakerConfig) (m : AgentMap) : Prop :=
  ∀ a ∈ m, (a.status = .healthy ∨ a.status = .degraded) →
    a.failureCount < cfg.failureThreshold

theorem updateCircuitBreakerState_inv {cfg : CircuitBreakerConfig} {now : Int}
    {a : AgentInfo} (ha : (a.status = .healthy ∨ a.status = .degraded) →
      a.failureCount < cfg.failureThreshold)
    (hpos : 0 < cfg.failureThreshold) :
    ((updateCircuitBreakerState cfg now a).status = .healthy ∨
      (updateCircuitBreakerState cfg now a).status = .degraded) →
    (updateCircuitBreakerState cfg now a).failureCount < cfg.failureThreshold := by
  cases hst : a.status with
  | offline =>
    simp only [updateCircuitBreakerState, hst]
    split_ifs with h1
    · rintro (h | h) <;> simp at h
    · rintro (h | h) <;> rw [hst] at h <;> simp at h
  | halfOpen =>
    simp only [updateCircuitBreakerState, hst]
    split_ifs with h1
    · rintro (h | h) <;> simp at h
    · rintro (h | h) <;> rw [hst] at h <;> simp at h
  | degraded =>
    simp only [updateCircuitBreakerState, hst]
    split_ifs with h1
    · intro _
      exact hpos
    · intro _
      exact ha (Or.inr hst)
  | healthy =>
    simp only [updateCircuitBreakerState, hst]
    intro _
    exact ha (Or.inl hst)

theorem applyEvent_inv {cfg : CircuitBreakerConfig} {hbTimeout : Int} {m : AgentMap}
    (e : RegistryEvent) (hpos : 0 < cfg.failureThreshold)
    (hInv : healthyFailureInv cfg m) :
    healthyFailureInv cfg (applyEvent cfg hbTimeout m e) := by
  cases e with
  | register now reg =>
    simp only [applyEvent]
    split
    · next m1 heq =>
      unfold registerAgent at heq
      split_ifs at heq
      obtain rfl := Except.ok.inj heq
      intro b hb hbst
      rcases mem_setAgent hb with rfl | hbm
      · exact hpos
      · exact hInv b hbm hbst
    · exact hInv
  | deregister agentID =>
    simp only [applyEvent]
    split
    · next m1 heq =>
      unfold deregister at heq
      split at heq
      · exact absurd heq (by simp)
      · obtain rfl := Except.ok.inj heq
        intro b hb hbst
        exact hInv b (List.mem_of_mem_filter hb) hbst
    · exact hInv
  | updateHealth now agentID stats =>
    simp only [applyEvent]
    split
    · next m1 heq =>
      unfold updateHealth at heq
      split at heq
      · exact absurd heq (by simp)
      · next a hlk =>
        obtain rfl := Except.ok.inj heq
        have hamem := (lookupAgent_mem hlk).1
        intro b hb hbst
        rcases mem_setAgent hb with rfl | hbm
        · rcases applyHealthStatus_cases { a with
            freeVRAMMB := stats.freeVRAMMB
            freeRAMMB := stats.freeRAMMB
            runningJobs := stats.runningJobs
            queuedJobs := stats.queuedJobs
            cpuPercent := stats.cpuPercent
            rttMs := stats.rttMs
            lastHeartbeat := now } with hcase | ⟨hstat, hcase⟩
          · rw [hcase] at hbst ⊢
            exact hInv a hamem hbst
          · have hfc : a.failureCount < cfg.failureThreshold := hInv a hamem hstat
            rcases hcase with hcase | hcase <;> rw [hcase] <;> exact hfc
        · exact hInv b hbm hbst
    · exact hInv
  | recordSuccess agentID =>
    simp only [applyEvent]
    split
    · next m1 heq =>
      unfold recordSuccess at heq
      split at heq
      · exact absurd heq (by simp)
      · next a hlk =>
        obtain rfl := Except.ok.inj heq
        intro b hb hbst
        rcases mem_setAgent hb with rfl | hbm
        · split_ifs with hcond
          · exact hpos
          · exact hpos
        · exact hInv b hbm hbst
    · exact hInv
  | recordFailure now agentID =>
    simp only [applyEvent]
    split
    · next m1 heq =>
      unfold recordFailure at heq
      split at heq
      · exact absurd heq (by simp)
      · next a hlk =>
        obtain rfl := Except.ok.inj heq
        intro b hb hbst
        rcases mem_setAgent hb with rfl | hbm
        · by_cases hcond : a.failureCount + 1 ≥ cfg.failureThreshold
          · rw [if_pos (by simpa using hcond)] at hbst
            rcases hbst with h | h <;> simp at h
          · rw [if_neg (by simpa using hcond)]
            simpa using lt_of_not_le hcond
        · exact hInv b hbm hbst
    · exact hInv
  | cleanupTick now =>
    simp only [applyEvent]
    intro b hb hbst
    unfold cleanupStaleAgents at hb
    rcases List.mem_filterMap.mp hb with ⟨a, ham, hstep⟩
    unfold cleanupAgentStep at hstep
    split at hstep
    · exact absurd hstep (by simp)
    · obtain rfl := Option.some_inj.mp hstep
      exact updateCircuitBreakerState_inv (hInv a ham) hpos hbst

/-- C4 counterexample: register an agent and record a single failure — below
the opening threshold — and the record is Healthy with `failure_count = 1`,
refuting `Healthy ⇒ failure_count = 0`. -/
theorem C4_counterexample :
    (runEvents defaultCircuitBreakerConfig 30
        [.register 0 sampleRegistration, .recordFailure 1 "A1"]).map
      (fun a => (a.status, a.failureCount)) = [(.healthy, 1)] := by
  rfl

/-- C4 amended: in every reachable registry state (after any sequence of
register, heartbeat-apply, success/failure recording, deregistration, and
cleanup ticks), every Healthy record's `failure_count` is strictly below the
circuit-opening `failure_threshold` (it is not always 0: sub-threshold
failures leave the record Healthy with a positive count). -/
theorem foldl_applyEvent_inv (cfg : CircuitBreakerConfig) (hbTimeout : Int)
    (hpos : 0 < cfg.failureThreshold) :
    ∀ (events : List RegistryEvent) (m0 : AgentMap), healthyFailureInv cfg m0 →
      healthyFailureInv cfg (List.foldl (applyEvent cfg hbTimeout) m0 events) := by
  intro events
  induction events with
  | nil => exact fun m0 h => h
  | cons e es ih =>
    intro m0 h0
    exact ih (applyEvent cfg hbTimeout m0 e) (applyEvent_inv e hpos h0)

theorem C4_amended (cfg : CircuitBreakerConfig) (hbTimeout : Int)
    (events : List RegistryEvent) (hpos : 0 < cfg.failureThreshold)
    (a : AgentInfo) (ha : a ∈ runEvents cfg hbTimeout events)
    (hst : a.status = .healthy) : a.failureCount < cfg.failureThreshold := by
  have hInv : healthyFailureInv cfg (runEvents cfg hbTimeout events) :=
    foldl_applyEvent_inv cfg hbTimeout hpos events [] (by intro b hb; simp at hb)
  exact hInv a ha (Or.inl hst)

theorem C4_amended_witness :
    (0 : Int) < defaultCircuitBreakerConfig.failureThreshold ∧
    (∃ a, a ∈ runEvents defaultCircuitBreakerConfig 30
        [.register 0 sampleRegistration, .recordFailure 1 "A1"] ∧
      a.status = .healthy ∧
      a.failureCount < defaultCircuitBreakerConfig.failureThreshold) :=
  ⟨by decide,
    ⟨{ sampleAgent with failureCount := 1, lastFailureTime := 1, successCount := 0 },
      by exact List.mem_singleton.mpr rfl, rfl,
      C4_amended defaultCircuitBreakerConfig 30
        [.register 0 sampleRegistration, .recordFailure 1 "A1"] (by decide)
        { sampleAgent with failureCount := 1, lastFailureTime := 1, successCount := 0 }
        (by exact List.mem_singleton.mpr rfl) rfl⟩⟩

/-! ## Scheduler result lemmas -/

theorem mem_schedulerCandidates {w : MCDAWeights} {ph : PerfHistory}
    {agents : List AgentInfo} {model : String} {sc : AgentScore}
    (h : sc ∈ schedulerCandidates w ph agents model) : sc.agent ∈ agents := by
  unfold schedulerCandidates at h
  split at h
  · rcases mem_fallbackCandidates h with ⟨a, ha, -, hsc⟩
    rw [hsc, calculateMCDAScore_agent]
    exact ha
  · rcases mem_primaryCandidates h with ⟨a, ha, -, -, hagent⟩
    rw [hagent]
    exact ha

theorem selectAgent_ok {w : MCDAWeights} {ph : PerfHistory} {m : AgentMap}
    {model : String} {a : AgentInfo} (h : selectAgent w ph m model = .ok a) :
    ∃ sc ∈ schedulerCandidates w ph (listHealthyAgents m) model,
      sc.agent = a ∧
      ∀ sc2 ∈ schedulerCandidates w ph (listHealthyAgents m) model,
        sc2.score ≤ sc.score := by
  simp only [selectAgent] at h
  split at h
  · exact absurd h (by simp)
  · split at h
    · exact absurd h (by simp)
    · rename_i c cs heq
      refine ⟨selectTopFrom c cs, ?_, Except.ok.inj h, ?_⟩
      · rw [heq]
        exact selectTopFrom_mem c cs
      · intro sc2 hsc2
        rw [heq] at hsc2
        exact selectTopFrom_le c cs sc2 hsc2

theorem selectAgent_ok_of_healthy (w : MCDAWeights) (ph : PerfHistory) (m : AgentMap)
    (model : String) (b : AgentInfo) (rest : List AgentInfo)
    (hl : listHealthyAgents m = b :: rest) :
    ∃ a, selectAgent w ph m model = .ok a := by
  have hbst : b.status = .healthy := by
    have hb : b ∈ listHealthyAgents m := by
      rw [hl]
      exact List.mem_cons_self b rest
    exact (mem_listHealthyAgents.mp hb).2
  have hfb : ∃ c cs, schedulerCandidates w ph (b :: rest) model = c :: cs := by
    unfold schedulerCandidates
    split
    · unfold fallbackCandidates
      rw [List.filterMap_cons, if_pos hbst]
      exact ⟨_, _, rfl⟩
    · rename_i hp
      cases hpc : primaryCandidates w ph (b :: rest) model with
      | nil => exact absurd hpc hp
      | cons c cs => exact ⟨c, cs, rfl⟩
  obtain ⟨c, cs, hc⟩ := hfb
  refine ⟨(selectTopFrom c cs).agent, ?_⟩
  simp only [selectAgent]
  rw [hl, if_neg (by simp), hc]

/-! ## C2 -/

/-- A Degraded agent that meets every resource and model admission
condition. -/
def degradedAgent : AgentInfo := { sampleAgent with
  id := "D1"
  status := .degraded }

/-- C2 counterexample: a registry whose only agent is Degraded and meets
all resource/model admission conditions — the claim says it is a candidate,
but `SelectAgent` fails outright because `ListHealthyAgents` returns only
Healthy agents, so the Degraded agent is never scored (and the ×0.5 penalty
branch is unreachable). -/
theorem C2_counterexample :
    admissionFilter degradedAgent "llama3:7b" ∧
    degradedAgent.status = .degraded ∧
    selectAgent defaultMCDAWeights [] [degradedAgent] "llama3:7b" =
      .error "no healthy agents available" := by
  refine ⟨by decide, rfl, rfl⟩

/-- C2 amended: a Degraded agent is never a scheduling candidate — the
scheduler draws candidates from `ListHealthyAgents`, which returns only
Healthy records, so every agent `SelectAgent` returns is Healthy and the
Degraded ×0.5 penalty is dead code; in the Healthy-0.8 vs Degraded-0.9
scenario the Healthy agent wins because the Degraded one is excluded, not
because its score is halved. -/
theorem C2_amended (w : MCDAWeights) (ph : PerfHistory) (m : AgentMap) (model : String)
    (a : AgentInfo) (h : selectAgent w ph m model = .ok a) : a.status = .healthy := by
  obtain ⟨sc, hsc, hagent, -⟩ := selectAgent_ok h
  have := mem_schedulerCandidates hsc
  rw [hagent] at this
  exact (mem_listHealthyAgents.mp this).2

theorem C2_amended_witness :
    selectAgent defaultMCDAWeights [] [degradedAgent, sampleAgent] "llama3:7b" =
      .ok sampleAgent ∧
    sampleAgent.status = .healthy :=
  ⟨rfl, C2_amended defaultMCDAWeights [] [degradedAgent, sampleAgent] "llama3:7b"
    sampleAgent rfl⟩

/-! ## C1 -/

/-- C1: `SelectAgent` either returns an agent satisfying the four-condition
admission filter, or — exactly when the primary filter yields zero
candidates — returns a Healthy agent with no resource constraint imposed,
and it fails with the no-agents error precisely when the healthy snapshot
is empty. -/
theorem C1_selectAgent_admission (w : MCDAWeights) (ph : PerfHistory) (m : AgentMap)
    (model : String) :
    (∀ a, selectAgent w ph m model = .ok a →
      admissionFilter a model ∨
        (primaryCandidates w ph (listHealthyAgents m) model = [] ∧
          a.status = .healthy)) ∧
    ((∃ e, selectAgent w ph m model = .error e) ↔ listHealthyAgents m = []) := by
  constructor
  · intro a h
    obtain ⟨sc, hsc, hagent, -⟩ := selectAgent_ok h
    unfold schedulerCandidates at hsc
    split at hsc
    · rename_i hp
      rcases mem_fallbackCandidates hsc with ⟨ag, hag, hagst, hsc2⟩
      right
      refine ⟨hp, ?_⟩
      rw [← hagent, hsc2, calculateMCDAScore_agent]
      exact hagst
    · rcases mem_primaryCandidates hsc with ⟨ag, hag, hsup, hstat, hagent2⟩
      left
      rcases supportsModel_true hsup with ⟨-, hvram, hjobs, hmodels⟩
      rw [← hagent, hagent2]
      refine ⟨?_, hvram, hjobs, hmodels⟩
      rcases hstat with h1 | h1
      · exact Or.inl h1
      · exact Or.inr (Or.inr h1)
  · constructor
    · rintro ⟨e, he⟩
      by_contra hne
      cases hl : listHealthyAgents m with
      | nil => exact hne hl
      | cons b rest =>
        obtain ⟨a, ha⟩ := selectAgent_ok_of_healthy w ph m model b rest hl
        rw [ha] at he
        exact absurd he (by simp)
    · intro hl
      refine ⟨"no healthy agents available", ?_⟩
      simp only [selectAgent]
      rw [hl]
      rfl

theorem C1_selectAgent_admission_witness :
    selectAgent defaultMCDAWeights [] [sampleAgent] "llama3:7b" = .ok sampleAgent ∧
    (admissionFilter sampleAgent "llama3:7b" ∨
      (primaryCandidates defaultMCDAWeights [] (listHealthyAgents [sampleAgent])
          "llama3:7b" = [] ∧ sampleAgent.status = .healthy)) ∧
    ((∃ e, selectAgent defaultMCDAWeights [] ([] : AgentMap) "llama3:7b" = .error e) ↔
      listHealthyAgents ([] : AgentMap) = []) :=
  ⟨rfl,
    (C1_selectAgent_admission defaultMCDAWeights [] [sampleAgent] "llama3:7b").1
      sampleAgent rfl,
    (C1_selectAgent_admission defaultMCDAWeights [] ([] : AgentMap) "llama3:7b").2⟩

/-! ## C6 -/

/-- Two admitted agents identical except for their ids: `"b-agent"` sorts
after `"a-agent"`. -/
def agentB6 : AgentInfo := { sampleAgent with id := "b-agent" }

/-- See `agentB6`. -/
def agentA6 : AgentInfo := { sampleAgent with id := "a-agent" }

/-- C6 counterexample: with two admitted candidates of equal score listed as
`[b-agent, a-agent]` in the snapshot, `SelectAgent` returns `b-agent` — the
first in snapshot order — although `a-agent` has the smaller id, refuting
the claimed agent-id-ascending tie-break. -/
theorem C6_counterexample :
    selectAgent defaultMCDAWeights [] [agentB6, agentA6] "llama3:7b" = .ok agentB6 ∧
    agentA6.id < agentB6.id ∧
    (calculateMCDAScore defaultMCDAWeights [] agentA6).score =
      (calculateMCDAScore defaultMCDAWeights [] agentB6).score := by
  refine ⟨?_, by rw [String.lt_iff_toList_lt]; decide, rfl⟩
  have hkey : selectAgent defaultMCDAWeights [] [agentB6, agentA6] "llama3:7b" =
      .ok (if (calculateMCDAScore defaultMCDAWeights [] agentA6).score >
            (calculateMCDAScore defaultMCDAWeights [] agentB6).score
          then calculateMCDAScore defaultMCDAWeights [] agentA6
          else calculateMCDAScore defaultMCDAWeights [] agentB6).agent := rfl
  have hne : ¬ (calculateMCDAScore defaultMCDAWeights [] agentA6).score >
      (calculateMCDAScore defaultMCDAWeights [] agentB6).score := by
    have he : (calculateMCDAScore defaultMCDAWeights [] agentA6).score =
        (calculateMCDAScore defaultMCDAWeights [] agentB6).score := rfl
    rw [he]
    exact lt_irrefl _
  rw [hkey, if_neg hne]
  rfl

/-- C6 amended: `SelectAgent` returns the agent of a maximal-score candidate
— every other candidate's (penalized) score is ≤ the winner's — but ties are
broken by snapshot position (the earliest maximal candidate wins), not by
agent-id ascending: no id comparison exists in the selection path. -/
theorem C6_amended (w : MCDAWeights) (ph : PerfHistory) (m : AgentMap) (model : String)
    (a : AgentInfo) (h : selectAgent w ph m model = .ok a) :
    ∃ sc ∈ schedulerCandidates w ph (listHealthyAgents m) model,
      sc.agent = a ∧
      ∀ sc2 ∈ schedulerCandidates w ph (listHealthyAgents m) model,
        sc2.score ≤ sc.score :=
  selectAgent_ok h

theorem C6_amended_witness :
    selectAgent defaultMCDAWeights [] [sampleAgent] "llama3:7b" = .ok sampleAgent ∧
    (∃ sc ∈ schedulerCandidates defaultMCDAWeights []
        (listHealthyAgents [sampleAgent]) "llama3:7b",
      sc.agent = sampleAgent ∧
      ∀ sc2 ∈ schedulerCandidates defaultMCDAWeights []
          (listHealthyAgents [sampleAgent]) "llama3:7b",
        sc2.score ≤ sc.score) :=
  ⟨rfl, C6_amended defaultMCDAWeights [] [sampleAgent] "llama3:7b" sampleAgent rfl⟩

/-! ## C9 -/

/-- C9: `RequestInference` returns InvalidArgument — leaving the token map
untouched, minting nothing — when `client_id`, `model`, or `prompt` is
empty; Unavailable when the scheduler fails; Internal when scheduling
succeeds but signing fails; and otherwise the selected agent's endpoint and
id, the signed session token, its expiry, and the job id, with the session
token appended to the token map. -/
theorem C9_requestInference (key : Nat) (ttl : Int) (w : MCDAWeights) (ph : PerfHistory)
    (m : AgentMap) (tokens : List SessionToken) (req : InferenceRequest) (now : Int)
    (signOk : Bool) (jti tokenID jobID : String) :
    ((req.clientID = "" ∨ req.model = "" ∨ req.prompt = "") →
      requestInference key ttl w ph m tokens req now signOk jti tokenID jobID =
        (.error .invalidArgument, tokens)) ∧
    (req.clientID ≠ "" → req.model ≠ "" → req.prompt ≠ "" →
      (∀ e, selectAgent w ph m req.model = .error e →
        requestInference key ttl w ph m tokens req now signOk jti tokenID jobID =
          (.error .unavailable, tokens)) ∧
      (∀ agent, selectAgent w ph m req.model = .ok agent →
        (signOk = false →
          requestInference key ttl w ph m tokens req now signOk jti tokenID jobID =
            (.error .internal, tokens)) ∧
        (signOk = true →
          requestInference key ttl w ph m tokens req now signOk jti tokenID jobID =
            (.ok { agentEndpoint := agent.endpoint
                   sessionToken :=
                     jwtGenerateToken key now jti agent.id req.clientID req.model ttl
                   expiresAt := now + ttl
                   jobID := jobID
                   estimatedRttMs := agent.rttMs
                   agentID := agent.id },
             tokens ++ [{ id := tokenID
                          agentID := agent.id
                          clientID := req.clientID
                          model := req.model
                          issuedAt := now
                          expiresAt := now + ttl
                          jwtToken :=
                            jwtGenerateToken key now jti agent.id req.clientID
                              req.model ttl }])))) := by
  constructor
  · intro hempty
    unfold requestInference
    by_cases h1 : req.clientID = ""
    · rw [if_pos h1]
    · rw [if_neg h1]
      by_cases h2 : req.model = ""
      · rw [if_pos h2]
      · rw [if_neg h2]
        rcases hempty with h | h | h
        · exact absurd h h1
        · exact absurd h h2
        · rw [if_pos h]
  · intro h1 h2 h3
    constructor
    · intro e he
      unfold requestInference
      rw [if_neg h1, if_neg h2, if_neg h3, he]
    · intro agent hag
      constructor
      · intro hs
        subst hs
        unfold requestInference
        rw [if_neg h1, if_neg h2, if_neg h3, hag]
        rfl
      · intro hs
        subst hs
        unfold requestInference
        rw [if_neg h1, if_neg h2, if_neg h3, hag]
        rfl

/-- The inference request used by concrete instances. -/
def sampleRequest : InferenceRequest :=
  { clientID := "c1", model := "llama3:7b", prompt := "hello", maxTokens := 64 }

theorem C9_requestInference_witness :
    (sampleRequest.clientID ≠ "" ∧ sampleRequest.model ≠ "" ∧
      sampleRequest.prompt ≠ "" ∧
      selectAgent defaultMCDAWeights [] [sampleAgent] sampleRequest.model =
        .ok sampleAgent ∧
      requestInference 7 60 defaultMCDAWeights [] [sampleAgent] [] sampleRequest 1000
          true "jti-1" "tok-1" "job-1" =
        (.ok { agentEndpoint := sampleAgent.endpoint
               sessionToken :=
                 jwtGenerateToken 7 1000 "jti-1" sampleAgent.id sampleRequest.clientID
                   sampleRequest.model 60
               expiresAt := 1060
               jobID := "job-1"
               estimatedRttMs := sampleAgent.rttMs
               agentID := sampleAgent.id },
         [{ id := "tok-1"
            agentID := sampleAgent.id
            clientID := sampleRequest.clientID
            model := sampleRequest.model
            issuedAt := 1000
            expiresAt := 1060
            jwtToken :=
              jwtGenerateToken 7 1000 "jti-1" sampleAgent.id sampleRequest.clientID
                sampleRequest.model 60 }])) ∧
    ({ sampleRequest with clientID := "" } : InferenceRequest).clientID = "" ∧
    requestInference 7 60 defaultMCDAWeights [] [sampleAgent] []
        { sampleRequest with clientID := "" } 1000 true "jti-1" "tok-1" "job-1" =
      (.error .invalidArgument, []) :=
  ⟨⟨by decide, by decide, by decide, rfl,
    (((C9_requestInference 7 60 defaultMCDAWeights [] [sampleAgent] [] sampleRequest
        1000 true "jti-1" "tok-1" "job-1").2 (by decide) (by decide) (by decide)).2
      sampleAgent rfl).2 rfl⟩,
    rfl,
    (C9_requestInference 7 60 defaultMCDAWeights [] [sampleAgent] []
      { sampleRequest with clientID := "" } 1000 true "jti-1" "tok-1" "job-1").1
      (Or.inl rfl)⟩

end TitanCompute
